import Mathlib

/-!
Shallow embedding of the Milvus query-coordinator RPC service layer
(`internal/querycoordv2/services.go`).

External collaborators (meta managers, distribution manager, target
manager/observer, node manager, cluster client, job scheduler, balance
executor) are modelled as uninterpreted fields of an environment record
`Env`: the service code under verification only consults them.  The
control flow, validation order, and status construction of every handler
are translated from the Go source.  Go `error` values are modelled by
`MErr`; a handler returning `(resp, nil)` is modelled as a pair whose
second component (the transport-level Go error) is `none`.
-/

namespace QueryCoordV2

/-- Kinds of the structured errors produced by the `merr` package,
used for programmatic matching (wrapping preserves the kind). -/
inductive ErrKind where
  | coordinatorUnhealthy
  | collectionNotLoaded
  | collectionNotFullyLoaded
  | onRecovering
  | parameterInvalid
  | nodeNotFound
  | segmentNotFound
  | segmentNotLoaded
  | partitionNotLoaded
  | resourceGroupNotFound
  | channelLack
  | channelNotAvailable
  | generic
  deriving DecidableEq, Repr

/-- Structured error values (`merr` wrapped errors, `errors.Wrap`,
`multierr` aggregates, and plain `errors.New`). -/
inductive MErr where
  | coordinatorUnhealthy
  | collectionNotLoaded (id : Int) (msg : String)
  | collectionNotFullyLoaded (id : Int)
  | onRecovering (id : Int) (msg : String)
  | parameterInvalid (expected actual msg : String)
  | nodeNotFound (id : Int) (msg : String)
  | segmentNotFound (id : Int) (msg : String)
  | segmentNotLoaded (id : Int)
  | partitionNotLoaded (id : Int)
  | resourceGroupNotFound (name : String)
  | channelLack (name : String) (msg : String)
  | channelNotAvailable (name : String)
  | generic (msg : String)
  | wrap (msg : String) (e : MErr)
  | multi (a b : MErr)
  deriving DecidableEq, Repr

/-- The base kind of an error: `errors.Wrap` preserves the wrapped kind,
`multierr` aggregates report the first error's kind. -/
def MErr.kind : MErr → ErrKind
  | .coordinatorUnhealthy => .coordinatorUnhealthy
  | .collectionNotLoaded _ _ => .collectionNotLoaded
  | .collectionNotFullyLoaded _ => .collectionNotFullyLoaded
  | .onRecovering _ _ => .onRecovering
  | .parameterInvalid _ _ _ => .parameterInvalid
  | .nodeNotFound _ _ => .nodeNotFound
  | .segmentNotFound _ _ => .segmentNotFound
  | .segmentNotLoaded _ => .segmentNotLoaded
  | .partitionNotLoaded _ => .partitionNotLoaded
  | .resourceGroupNotFound _ => .resourceGroupNotFound
  | .channelLack _ _ => .channelLack
  | .channelNotAvailable _ => .channelNotAvailable
  | .generic _ => .generic
  | .wrap _ e => e.kind
  | .multi a _ => a.kind

/-- Rough rendering of an error message (`err.Error()` in Go); the exact
text of collaborator-formatted messages is not under verification. -/
def MErr.errString : MErr → String
  | .coordinatorUnhealthy => "coordinator is unhealthy"
  | .collectionNotLoaded id msg => "collection " ++ toString id ++ " not loaded: " ++ msg
  | .collectionNotFullyLoaded id => "collection " ++ toString id ++ " not fully loaded"
  | .onRecovering id msg => "collection " ++ toString id ++ " on recovering: " ++ msg
  | .parameterInvalid expected actual msg =>
      "invalid parameter, expected " ++ expected ++ ", actual " ++ actual ++ ": " ++ msg
  | .nodeNotFound id msg => "node " ++ toString id ++ " not found: " ++ msg
  | .segmentNotFound id msg => "segment " ++ toString id ++ " not found: " ++ msg
  | .segmentNotLoaded id => "segment " ++ toString id ++ " not loaded"
  | .partitionNotLoaded id => "partition " ++ toString id ++ " not loaded"
  | .resourceGroupNotFound name => "resource group " ++ name ++ " not found"
  | .channelLack name msg => "channel " ++ name ++ " lacks: " ++ msg
  | .channelNotAvailable name => "channel " ++ name ++ " not available"
  | .generic msg => msg
  | .wrap msg e => msg ++ ": " ++ e.errString
  | .multi a b => a.errString ++ "; " ++ b.errString

/-- A `commonpb.Status` in a response: `none` is `merr.Success()`,
`some e` is `merr.Status(e)` for a non-nil error `e`. -/
abbrev Status := Option MErr

/-- Kind of the error a status carries, if any. -/
def statusKind (st : Status) : Option ErrKind := st.map MErr.kind

/-- Coordinator state code (`s.State()`). -/
inductive StateCode where
  | Healthy
  | Abnormal
  | StandBy
  deriving DecidableEq, Repr

/-- `merr.CheckHealthy`: non-nil error unless the state is Healthy. -/
def checkHealthy (sc : StateCode) : Option MErr :=
  if sc = .Healthy then none else some .coordinatorUnhealthy

/-- `merr.CheckHealthyStandby`: Healthy and StandBy both pass. -/
def checkHealthyStandby (sc : StateCode) : Option MErr :=
  if sc = .Healthy ∨ sc = .StandBy then none else some .coordinatorUnhealthy

/-- `querypb.LoadStatus`. -/
inductive LoadStatus where
  | Invalid
  | Loading
  | Loaded
  deriving DecidableEq, Repr

/-- `querypb.LoadType`. -/
inductive LoadType where
  | loadCollection
  | loadPartition
  | unknownType
  deriving DecidableEq, Repr

/-- A collection record of the collection manager (the fields this
service layer reads and writes). -/
structure Collection where
  status : LoadStatus
  loadPercentage : Int
  releasedPartitions : List Int
  hasRefreshNotifier : Bool
  refreshed : Bool
  deriving DecidableEq, Repr

/-- A partition record. -/
structure Partition where
  loadPercentage : Int
  deriving DecidableEq, Repr

/-- A replica of a collection bound to a resource group and a node set. -/
structure Replica where
  id : Int
  collectionID : Int
  resourceGroup : String
  nodes : List Int
  deriving DecidableEq, Repr

/-- A named resource group. -/
structure ResourceGroup where
  name : String
  capacity : Int
  nodes : List Int
  deriving DecidableEq, Repr

/-- A node session as returned by the node manager. -/
structure NodeInfo where
  id : Int
  addr : String
  hostname : String
  deriving DecidableEq, Repr

/-- A leader view: a node's claim to serve a channel. -/
structure LeaderView where
  id : Int
  channel : String
  deriving DecidableEq, Repr

/-- A sealed segment as recorded by the distribution manager. -/
structure Segment where
  id : Int
  collectionID : Int
  deriving DecidableEq, Repr

/-- `meta.DefaultResourceGroupName`. -/
def DefaultResourceGroupName : String := "__default_resource_group"

/-- Abstract environment: the server's current state together with all
collaborator answers the handlers consult.  Collaborators are pure
uninterpreted functions, so one `Env` is one consistent snapshot of the
world during an RPC. -/
structure Env where
  state : StateCode
  -- collection manager
  getAllCollections : List Int
  calcLoadPercentage : Int → Int
  getCollection : Int → Option Collection
  failedLoadCacheGet : Int → Option MErr
  getPartitionsByCollection : Int → List Int
  getPartitionLoadPercentage : Int → Int
  getLoadType : Int → LoadType
  getPartition : Int → Option Partition
  -- replica manager
  getResourceGroupByCollection : Int → List String
  replicaByCollectionAndNode : Int → Int → Option Replica
  replicasByCollection : Int → List Replica
  replicasByResourceGroup : String → List Replica
  -- resource manager
  containResourceGroup : String → Bool
  getResourceGroup : String → Option ResourceGroup
  addResourceGroup : String → Option MErr
  updateResourceGroupsCall : Option MErr
  removeResourceGroup : String → Option MErr
  transferNodeCall : String → String → Int → Option MErr
  listResourceGroupsCall : List String
  metaTransferReplica : Int → String → String → Int → Option MErr
  -- node manager
  isStoppingNodeRaw : Int → Bool × Option MErr
  nodeInfoGet : Int → Option NodeInfo
  nodesGetAll : List Int
  -- distribution manager
  segmentsOnNode : Int → Int → List Segment
  segmentDistByID : Int → List Segment
  leaderViewsByChannel : String → List LeaderView
  -- target manager / observer
  sealedSegmentInTarget : Int → Int → Bool
  dmChannelsByCollection : Int → List String
  updateNextTarget : Int → Option MErr
  -- checkers and package-level helpers outside this file
  checkLeaderAvailable : Int → LeaderView → Option MErr
  filterDupLeaders : List LeaderView → List LeaderView
  -- cluster client (component-state probe); payload is opaque
  getComponentStates : Int → Except MErr Int
  analyzeState : Int → Int → Option String
  -- job scheduler results (job.Wait) and balance executor
  loadCollectionJobWait : Int → List String → Int → Option MErr
  loadPartitionJobWait : Int → List Int → List String → Option MErr
  releaseCollectionJobWait : Int → Option MErr
  releasePartitionsJobWait : Int → List Int → Option MErr
  syncNewCreatedPartitionJobWait : Int → Int → Option MErr
  balanceSegments : Int → Int → List Int → List Int → Option MErr
  -- metrics path
  parseMetricType : String → Option String
  getSystemInfoMetrics : Option MErr
  checkAnyReplicaAvailable : Int → Bool

/-- Insert into a `typeutil.UniqueSet`, keeping insertion order. -/
def insertUnique (acc : List Int) (x : Int) : List Int :=
  if x ∈ acc then acc else acc ++ [x]

/-- Collect a list into a unique set (insertion order, first wins). -/
def uniqueList (l : List Int) : List Int :=
  l.foldl insertUnique []

/-- Insert a segment into a set of segments (set semantics by value). -/
def insertSegUnique (acc : List Segment) (s : Segment) : List Segment :=
  if s ∈ acc then acc else acc ++ [s]

/-- `lo.SliceToMap` keyed by segment ID: a later duplicate key
overwrites an earlier one, so lookup finds the last matching element. -/
def sliceToMapLookup (segments : List Segment) (sid : Int) : Option Segment :=
  segments.reverse.find? (fun s => s.id = sid)

/-! Handler models, translated from `services.go`. -/

/-- `Server.checkResourceGroup` inner loop over the requested groups
(`total` is the length of the full request list, `used` the set of
resource groups already holding a replica of the collection). -/
def checkResourceGroupLoop (used : List String) (total : Nat) : List String → Option MErr
  | [] => none
  | rgName :: rest =>
    if used.length > 0 ∧ rgName ∉ used then
      some (.parameterInvalid "created resource group(s)" rgName "given resource group not found")
    else if total > 1 ∧ rgName = DefaultResourceGroupName then
      some (.parameterInvalid "no default resource group mixed with the other resource group(s)" rgName "")
    else
      checkResourceGroupLoop used total rest

/-- `Server.checkResourceGroup` (services.go lines 352-367). -/
def checkResourceGroup (e : Env) (collectionID : Int) (resourceGroups : List String) : Option MErr :=
  if resourceGroups ≠ [] then
    checkResourceGroupLoop (e.getResourceGroupByCollection collectionID)
      resourceGroups.length resourceGroups
  else
    none

/-- `Server.refreshCollection` (services.go lines 556-575).  Returns the
error (if any) and the environment after the call: the only mutation is
`collection.SetRefreshNotifier(readyCh)` on success. -/
def refreshCollection (e : Env) (collectionID : Int) : Option MErr × Env :=
  match e.getCollection collectionID with
  | none => (some (.collectionNotLoaded collectionID ""), e)
  | some collection =>
    if collection.status ≠ .Loaded then
      (some (.collectionNotLoaded collectionID "collection not fully loaded"), e)
    else
      match e.updateNextTarget collectionID with
      | some err => (some err, e)
      | none =>
        (none,
          { e with
            getCollection := fun cid =>
              if cid = collectionID then some { collection with hasRefreshNotifier := true }
              else e.getCollection cid })

/-- Request of `LoadCollection`. -/
structure LoadCollectionRequest where
  collectionID : Int
  replicaNumber : Int
  resourceGroups : List String
  refresh : Bool
  deriving DecidableEq, Repr

/-- Request of `LoadPartitions`. -/
structure LoadPartitionsRequest where
  collectionID : Int
  partitionIDs : List Int
  replicaNumber : Int
  resourceGroups : List String
  refresh : Bool
  deriving DecidableEq, Repr

/-- Outcome of a load handler: the response status, the transport-level
Go error, whether a load job was submitted to the scheduler, and the
environment after the call. -/
structure LoadResult where
  status : Status
  goErr : Option MErr
  jobSubmitted : Bool
  envAfter : Env

/-- `Server.LoadCollection` (services.go lines 190-249). -/
def LoadCollection (e : Env) (req : LoadCollectionRequest) : LoadResult :=
  match checkHealthy e.state with
  | some err =>
    { status := some (.wrap "failed to load collection" err), goErr := none,
      jobSubmitted := false, envAfter := e }
  | none =>
    if req.refresh then
      let r := refreshCollection e req.collectionID
      { status := r.1, goErr := none, jobSubmitted := false, envAfter := r.2 }
    else
      match checkResourceGroup e req.collectionID req.resourceGroups with
      | some err =>
        { status := some (.wrap "failed to load collection" err), goErr := none,
          jobSubmitted := false, envAfter := e }
      | none =>
        match e.loadCollectionJobWait req.collectionID req.resourceGroups req.replicaNumber with
        | some err =>
          { status := some (.wrap "failed to load collection" err), goErr := none,
            jobSubmitted := true, envAfter := e }
        | none =>
          { status := none, goErr := none, jobSubmitted := true, envAfter := e }

/-- `Server.LoadPartitions` (services.go lines 292-350). -/
def LoadPartitions (e : Env) (req : LoadPartitionsRequest) : LoadResult :=
  match checkHealthy e.state with
  | some err =>
    { status := some (.wrap "failed to load partitions" err), goErr := none,
      jobSubmitted := false, envAfter := e }
  | none =>
    if req.refresh then
      let r := refreshCollection e req.collectionID
      { status := r.1, goErr := none, jobSubmitted := false, envAfter := r.2 }
    else
      match checkResourceGroup e req.collectionID req.resourceGroups with
      | some err =>
        { status := some (.wrap "failed to load partitions" err), goErr := none,
          jobSubmitted := false, envAfter := e }
      | none =>
        match e.loadPartitionJobWait req.collectionID req.partitionIDs req.resourceGroups with
        | some err =>
          { status := some (.wrap "failed to load partitions" err), goErr := none,
            jobSubmitted := true, envAfter := e }
        | none =>
          { status := none, goErr := none, jobSubmitted := true, envAfter := e }

/-- Request of `TransferReplica`. -/
structure TransferReplicaRequest where
  collectionID : Int
  sourceResourceGroup : String
  targetResourceGroup : String
  numReplica : Int
  deriving DecidableEq, Repr

/-- Outcome of `TransferReplica`: response status and whether the change
was applied through the replica manager (`s.meta.TransferReplica`). -/
structure TransferReplicaResult where
  status : Status
  applied : Bool
  deriving DecidableEq, Repr

/-- `Server.TransferReplica` (services.go lines 1095-1124). -/
def TransferReplica (e : Env) (req : TransferReplicaRequest) :
    TransferReplicaResult × Option MErr :=
  match checkHealthy e.state with
  | some err => ({ status := some err, applied := false }, none)
  | none =>
    if ¬ e.containResourceGroup req.sourceResourceGroup then
      ({ status := some (.wrap
            ("the source resource group[" ++ req.sourceResourceGroup ++ "] doesn't exist")
            (.resourceGroupNotFound req.sourceResourceGroup)),
         applied := false }, none)
    else if ¬ e.containResourceGroup req.targetResourceGroup then
      ({ status := some (.wrap
            ("the target resource group[" ++ req.targetResourceGroup ++ "] doesn't exist")
            (.resourceGroupNotFound req.targetResourceGroup)),
         applied := false }, none)
    else
      ({ status := e.metaTransferReplica req.collectionID req.sourceResourceGroup
            req.targetResourceGroup req.numReplica,
         applied := true }, none)

/-- Response of `CheckHealth`. -/
structure CheckHealthResp where
  status : Status
  isHealthy : Bool
  reasons : List String
  deriving DecidableEq, Repr

/-- Sequential model of the `errgroup` fan-out in
`Server.checkNodeHealth` (services.go lines 978-1004): each node is
probed; a transport error from `GetComponentStates` is returned from the
task (the group keeps the first one), while a non-healthy component
state analyzed by `merr.AnalyzeState` is only appended to the reason
list. -/
def checkNodeHealthLoop (e : Env) : List Int → List String × Option MErr
  | [] => ([], none)
  | n :: rest =>
    match e.getComponentStates n with
    | .error err =>
      let r := checkNodeHealthLoop e rest
      (r.1, some err)
    | .ok resp =>
      let here := match e.analyzeState n resp with
        | some reason => [reason]
        | none => []
      let r := checkNodeHealthLoop e rest
      (here ++ r.1, r.2)

/-- `Server.checkNodeHealth`: reasons plus the hard error returned by
`group.Wait()`. -/
def checkNodeHealth (e : Env) : List String × Option MErr :=
  checkNodeHealthLoop e e.nodesGetAll

/-- `Server.CheckHealth` (services.go lines 965-976). -/
def CheckHealth (e : Env) : CheckHealthResp × Option MErr :=
  match checkHealthy e.state with
  | some err =>
    ({ status := some err, isHealthy := false, reasons := [err.errString] }, none)
  | none =>
    let r := checkNodeHealth e
    if r.2.isSome ∨ r.1 ≠ [] then
      ({ status := none, isHealthy := false, reasons := r.1 }, none)
    else
      ({ status := none, isHealthy := true, reasons := r.1 }, none)

/-- Placement reads performed by `LoadBalance`, recorded in call order:
the load-percentage calculation, the replica lookup, the distribution
query for the source node's segments, and the current-target lookups. -/
inductive ReadEv where
  | calcPercentage
  | replicaLookup
  | distQuery
  | targetQuery
  deriving DecidableEq, Repr

/-- Request of `LoadBalance`. -/
structure LoadBalanceRequest where
  collectionID : Int
  sourceNodeIDs : List Int
  dstNodeIDs : List Int
  sealedSegmentIDs : List Int
  deriving DecidableEq, Repr

/-- Outcome of `LoadBalance`: response status, transport-level Go error,
the destination node set and segment set handed to `balanceSegments`
(meaningful only when `balanceCalled` is true), and the placement reads
the handler performed. -/
structure LoadBalanceResult where
  status : Status
  goErr : Option MErr
  dstNodes : List Int
  toBalance : List Int
  balanceCalled : Bool
  reads : List ReadEv
  deriving Repr

/-- An early rejection of `LoadBalance` (no balance executed). -/
def lbFail (st : MErr) (reads : List ReadEv) : LoadBalanceResult :=
  { status := some st, goErr := none, dstNodes := [], toBalance := [],
    balanceCalled := false, reads := reads }

/-- `Server.isStoppingNode` (services.go lines 632-644): propagate the
node-manager error, else reject stopping nodes with a plain error. -/
def isStoppingNodeCheck (e : Env) (nodeID : Int) : Option MErr :=
  match e.isStoppingNodeRaw nodeID with
  | (_, some err) => some err
  | (true, none) =>
    some (.generic ("failed to balance due to the source/destination node[" ++
      toString nodeID ++ "] is stopping"))
  | (false, none) => none

/-- The destination-node loop of `LoadBalance` for an explicit
destination list: each node must belong to the replica, and the
accepted ones are collected into a unique set. -/
def collectDstNodes (replica : Replica) : List Int → List Int → Except MErr (List Int)
  | acc, [] => .ok acc
  | acc, d :: rest =>
    if d ∈ replica.nodes then
      collectDstNodes replica (insertUnique acc d) rest
    else
      .error (.nodeNotFound d "destination node not found in the same replica")

/-- First stopping-node error over the destination set. -/
def firstStoppingErr (e : Env) : List Int → Option (Int × MErr)
  | [] => none
  | n :: rest =>
    match isStoppingNodeCheck e n with
    | some err => some (n, err)
    | none => firstStoppingErr e rest

/-- The sealed-segment loop of `LoadBalance` for an explicit segment
list: a segment absent from the source node is an error, a segment
absent from the current target is skipped, the rest are collected. -/
def collectToBalance (e : Env) (segments : List Segment) :
    List Segment → List Int → Except MErr (List Segment)
  | acc, [] => .ok acc
  | acc, sid :: rest =>
    match sliceToMapLookup segments sid with
    | none => .error (.segmentNotFound sid "segment not found in source node")
    | some seg =>
      if e.sealedSegmentInTarget seg.collectionID seg.id then
        collectToBalance e segments (insertSegUnique acc seg) rest
      else
        collectToBalance e segments acc rest

/-- `Server.LoadBalance` (services.go lines 646-747). -/
def LoadBalance (e : Env) (req : LoadBalanceRequest) : LoadBalanceResult :=
  match checkHealthy e.state with
  | some err => lbFail (.wrap "failed to load balance" err) []
  | none =>
    if req.sourceNodeIDs.length ≠ 1 then
      lbFail (.parameterInvalid "only 1 source node"
        (toString req.sourceNodeIDs.length ++ " source nodes") "") []
    else if e.calcLoadPercentage req.collectionID < 100 then
      lbFail (.collectionNotFullyLoaded req.collectionID) [.calcPercentage]
    else
      let srcNode := req.sourceNodeIDs.headI
      match e.replicaByCollectionAndNode req.collectionID srcNode with
      | none =>
        lbFail (.nodeNotFound srcNode
          ("source node not found in any replica of collection " ++ toString req.collectionID))
          [.calcPercentage, .replicaLookup]
      | some replica =>
        match isStoppingNodeCheck e srcNode with
        | some err =>
          lbFail (.wrap ("can't balance, because the source node[" ++ toString srcNode ++
            "] is invalid") err) [.calcPercentage, .replicaLookup]
        | none =>
          let dstRes : Except MErr (List Int) :=
            if req.dstNodeIDs = [] then
              .ok (uniqueList replica.nodes)
            else
              collectDstNodes replica [] req.dstNodeIDs
          match dstRes with
          | .error err => lbFail err [.calcPercentage, .replicaLookup]
          | .ok dstNodeSet =>
            match firstStoppingErr e dstNodeSet with
            | some de =>
              lbFail (.wrap ("can't balance, because the destination node[" ++
                toString de.1 ++ "] is invalid") de.2) [.calcPercentage, .replicaLookup]
            | none =>
              let segments := e.segmentsOnNode req.collectionID srcNode
              let tbRes : Except MErr (List Segment) :=
                if req.sealedSegmentIDs = [] then
                  .ok segments
                else
                  collectToBalance e segments [] req.sealedSegmentIDs
              match tbRes with
              | .error err =>
                lbFail err [.calcPercentage, .replicaLookup, .distQuery, .targetQuery]
              | .ok toBal =>
                let segIDs := toBal.map (·.id)
                match e.balanceSegments req.collectionID srcNode dstNodeSet segIDs with
                | some err =>
                  { status := some (.wrap "failed to balance segments" err), goErr := none,
                    dstNodes := dstNodeSet, toBalance := segIDs, balanceCalled := true,
                    reads := [.calcPercentage, .replicaLookup, .distQuery, .targetQuery] }
                | none =>
                  { status := none, goErr := none,
                    dstNodes := dstNodeSet, toBalance := segIDs, balanceCalled := true,
                    reads := [.calcPercentage, .replicaLookup, .distQuery, .targetQuery] }

/-- One entry of the `Shards` list in a `GetShardLeadersResponse`. -/
structure ShardLeadersList where
  channelName : String
  nodeIds : List Int
  nodeAddrs : List String
  deriving DecidableEq, Repr

/-- Response of `GetShardLeaders`. -/
structure GetShardLeadersResp where
  status : Status
  shards : List ShardLeadersList
  deriving DecidableEq, Repr

/-- `multierr.AppendInto`. -/
def appendInto (acc : Option MErr) (e : MErr) : Option MErr :=
  match acc with
  | none => some e
  | some a => some (.multi a e)

/-- The availability-filter loop over a channel's leader views:
failures accumulate into the channel error, survivors are kept. -/
def filterReadable (e : Env) (cid : Int) :
    List LeaderView → Option MErr → List LeaderView × Option MErr
  | [], acc => ([], acc)
  | l :: rest, acc =>
    match e.checkLeaderAvailable cid l with
    | some err => filterReadable e cid rest (appendInto acc err)
    | none =>
      let r := filterReadable e cid rest acc
      (l :: r.1, r.2)

/-- `readableLeaders[leader.ID] = leader`: a Go map keyed by node ID, a
later view with the same ID overwrites an earlier one. -/
def mapInsertLeader (acc : List LeaderView) (l : LeaderView) : List LeaderView :=
  (acc.filter (fun x => x.id ≠ l.id)) ++ [l]

/-- Outcome of resolving one channel: a shard entry, a failure status,
or a crash (the Go code calls `channelErr.Error()` on a nil error when
every surviving leader loses its node session between the availability
check and the address lookup). -/
inductive ChanOutcome where
  | ok (sh : ShardLeadersList)
  | fail (st : MErr)
  | crash
  deriving DecidableEq, Repr

/-- Per-channel leader resolution in `GetShardLeaders` (services.go
lines 904-960). -/
def resolveChannel (e : Env) (cid : Int) (ch : String) : ChanOutcome :=
  let leaders := e.leaderViewsByChannel ch
  let channelErr0 : Option MErr :=
    if leaders = [] then some (.channelLack ch "channel not subscribed") else none
  let fr := filterReadable e cid leaders channelErr0
  let readable := fr.1.foldl mapInsertLeader []
  match readable, fr.2 with
  | [], some ce => .fail (.wrap ce.errString (.channelNotAvailable ch))
  | [], none => .crash
  | _ :: _, channelErr =>
    let deduped := e.filterDupLeaders readable
    let infos := deduped.filterMap (fun l => e.nodeInfoGet l.id)
    let ids := infos.map (·.id)
    let addrs := infos.map (·.addr)
    if ids = [] then
      match channelErr with
      | some ce => .fail (.wrap ce.errString (.channelNotAvailable ch))
      | none => .crash
    else
      .ok { channelName := ch, nodeIds := ids, nodeAddrs := addrs }

/-- The channel loop of `GetShardLeaders`: on the first failing channel
the response keeps that channel's failure status and sets `Shards` to
nil, discarding entries already accumulated; `none` is a crash. -/
def resolveLoop (e : Env) (cid : Int) :
    List String → List ShardLeadersList → Option GetShardLeadersResp
  | [], acc => some { status := none, shards := acc }
  | ch :: rest, acc =>
    match resolveChannel e cid ch with
    | .ok sh => resolveLoop e cid rest (acc ++ [sh])
    | .fail st => some { status := some st, shards := [] }
    | .crash => none

/-- Whether the collection's load status is `Loaded` (the check at
services.go lines 881-885). -/
def collectionStatusLoaded (e : Env) (cid : Int) : Bool :=
  match e.getCollection cid with
  | some c => c.status = .Loaded
  | none => false

/-- The channel phase of `GetShardLeaders` (everything after the load
gates, services.go lines 894-962). -/
def shardLeadersChannelsPhase (e : Env) (cid : Int) :
    Option (GetShardLeadersResp × Option MErr) :=
  let channels := e.dmChannelsByCollection cid
  let recoveringErr : MErr := .onRecovering cid
    "loaded collection do not found any channel in target, may be in recovery"
  if channels = [] then
    some ({ status := some recoveringErr, shards := [] }, none)
  else
    match resolveLoop e cid channels [] with
    | some r => some (r, none)
    | none => none

/-- `Server.GetShardLeaders` (services.go lines 856-963); `none` models
the crash of the nil-error corner in the channel loop. -/
def GetShardLeaders (e : Env) (cid : Int) : Option (GetShardLeadersResp × Option MErr) :=
  match checkHealthy e.state with
  | some err =>
    some ({ status := some (.wrap "failed to get shard leaders" err), shards := [] }, none)
  | none =>
    let percentage := e.calcLoadPercentage cid
    if percentage < 0 then
      some ({ status := some (.collectionNotLoaded cid ""), shards := [] }, none)
    else
      let percentage' := if collectionStatusLoaded e cid then 100 else percentage
      if percentage' < 100 then
        some ({ status := some (.collectionNotFullyLoaded cid), shards := [] }, none)
      else
        shardLeadersChannelsPhase e cid

/-! The remaining RPC handlers of `services.go`, modelled at the level
of their status computation (payload fields that no claim mentions are
elided; the control flow and every return site follow the source). -/

/-- The per-collection loop of `ShowCollections` (services.go lines
85-122): a negative percentage is skipped in get-all mode, else it
reports the cached failure or `CollectionNotLoaded`. -/
def showCollectionsLoop (e : Env) (isGetAll : Bool) : List Int → Option MErr
  | [] => none
  | cid :: rest =>
    if e.calcLoadPercentage cid < 0 then
      if isGetAll then
        showCollectionsLoop e isGetAll rest
      else
        match e.failedLoadCacheGet cid with
        | some err => some (.wrap "show collection failed" err)
        | none => some (.wrap "show collection failed" (.collectionNotLoaded cid ""))
    else
      showCollectionsLoop e isGetAll rest

/-- `Server.ShowCollections` (services.go lines 57-125). -/
def ShowCollections (e : Env) (collectionIDs : List Int) : Status × Option MErr :=
  match checkHealthy e.state with
  | some err => (some (.wrap "failed to show collections" err), none)
  | none =>
    let isGetAll := collectionIDs = []
    let collections :=
      if collectionIDs = [] then uniqueList e.getAllCollections else uniqueList collectionIDs
    (showCollectionsLoop e isGetAll collections, none)

/-- The per-partition loop of `ShowPartitions` (services.go lines
152-171). -/
def showPartitionsLoop (e : Env) (collectionID : Int) : List Int → Option MErr
  | [] => none
  | pid :: rest =>
    if e.getPartitionLoadPercentage pid < 0 then
      match e.failedLoadCacheGet collectionID with
      | some err => some err
      | none => some (.partitionNotLoaded pid)
    else
      showPartitionsLoop e collectionID rest

/-- `Server.ShowPartitions` (services.go lines 127-188). -/
def ShowPartitions (e : Env) (collectionID : Int) (partitionIDs : List Int) :
    Status × Option MErr :=
  match checkHealthy e.state with
  | some err => (some (.wrap "failed to show partitions" err), none)
  | none =>
    let partitions :=
      if partitionIDs = [] then e.getPartitionsByCollection collectionID else partitionIDs
    (showPartitionsLoop e collectionID partitions, none)

/-- `Server.ReleaseCollection` (services.go lines 251-290). -/
def ReleaseCollection (e : Env) (collectionID : Int) : Status × Option MErr :=
  match checkHealthy e.state with
  | some err => (some (.wrap "failed to release collection" err), none)
  | none =>
    match e.releaseCollectionJobWait collectionID with
    | some err => (some (.wrap "failed to release collection" err), none)
    | none => (none, none)

/-- `Server.ReleasePartitions` (services.go lines 369-416). -/
def ReleasePartitions (e : Env) (collectionID : Int) (partitionIDs : List Int) :
    Status × Option MErr :=
  match checkHealthy e.state with
  | some err => (some (.wrap "failed to release partitions" err), none)
  | none =>
    if partitionIDs = [] then
      (some (.parameterInvalid "any partition" "empty partition list" ""), none)
    else
      match e.releasePartitionsJobWait collectionID partitionIDs with
      | some err => (some (.wrap "failed to release partitions" err), none)
      | none => (none, none)

/-- The per-partition loop of `GetPartitionStates` in the
load-partition case (services.go lines 458-473). -/
def partitionStatesLoop (e : Env) : List Int → Option MErr
  | [] => none
  | pid :: rest =>
    match e.getPartition pid with
    | none => some (.partitionNotLoaded pid)
    | some _ => partitionStatesLoop e rest

/-- `Server.GetPartitionStates` (services.go lines 418-484); the state
payload is elided, only the status outcome is modelled. -/
def GetPartitionStates (e : Env) (collectionID : Int) (partitionIDs : List Int) :
    Status × Option MErr :=
  match checkHealthy e.state with
  | some err => (some (.wrap "failed to get partition states" err), none)
  | none =>
    match e.getLoadType collectionID with
    | .loadCollection =>
      let released := match e.getCollection collectionID with
        | some c => c.releasedPartitions
        | none => []
      if partitionIDs.any (fun p => p ∈ released) then
        (some (.partitionNotLoaded 0), none)
      else
        (none, none)
    | .loadPartition => (partitionStatesLoop e partitionIDs, none)
    | .unknownType => (some (.partitionNotLoaded 0), none)

/-- The per-segment loop of `GetSegmentInfo` (services.go lines
505-518). -/
def segmentInfoLoop (e : Env) : List Int → Option MErr
  | [] => none
  | sid :: rest =>
    if e.segmentDistByID sid = [] then
      some (.wrap ("segment " ++ toString sid ++ " not found in any node")
        (.segmentNotLoaded sid))
    else
      segmentInfoLoop e rest

/-- `Server.GetSegmentInfo` (services.go lines 486-525). -/
def GetSegmentInfo (e : Env) (collectionID : Int) (segmentIDs : List Int) :
    Status × Option MErr :=
  match checkHealthy e.state with
  | some err => (some (.wrap "failed to get segment info" err), none)
  | none =>
    if segmentIDs = [] then
      (none, none)
    else
      (segmentInfoLoop e segmentIDs, none)

/-- `Server.SyncNewCreatedPartition` (services.go lines 527-550). -/
def SyncNewCreatedPartition (e : Env) (collectionID partitionID : Int) :
    Status × Option MErr :=
  match checkHealthy e.state with
  | some err => (some err, none)
  | none =>
    match e.syncNewCreatedPartitionJobWait collectionID partitionID with
    | some err => (some err, none)
    | none => (none, none)

/-- `Server.ShowConfigurations` (services.go lines 749-774). -/
def ShowConfigurations (e : Env) : Status × Option MErr :=
  match checkHealthy e.state with
  | some err => (some (.wrap "failed to show configurations" err), none)
  | none => (none, none)

/-- `Server.GetMetrics` (services.go lines 776-821); the only handler
gated by `CheckHealthyStandby`. -/
def GetMetrics (e : Env) (request : String) : Status × Option MErr :=
  match checkHealthyStandby e.state with
  | some err => (some (.wrap "failed to get metrics" err), none)
  | none =>
    match e.parseMetricType request with
    | none => (some (.wrap "failed to parse metric type" (.generic "invalid metric type")), none)
    | some metricType =>
      if metricType ≠ "system_info" then
        (some (.wrap "invalid metric type" (.generic "unimplemented metric")), none)
      else
        match e.getSystemInfoMetrics with
        | some err => (some (.wrap "failed to get system info metrics" err), none)
        | none => (none, none)

/-- `Server.GetReplicas` (services.go lines 823-854); an empty replica
list returns a response whose status field is left nil (modelled as
success), never a transport error. -/
def GetReplicas (e : Env) (collectionID : Int) : Status × Option MErr :=
  match checkHealthy e.state with
  | some err => (some (.wrap "failed to get replicas" err), none)
  | none => (none, none)

/-- `Server.CreateResourceGroup` (services.go lines 1006-1023). -/
def CreateResourceGroup (e : Env) (name : String) : Status × Option MErr :=
  match checkHealthy e.state with
  | some err => (some err, none)
  | none =>
    match e.addResourceGroup name with
    | some err => (some err, none)
    | none => (none, none)

/-- `Server.UpdateResourceGroups` (services.go lines 1025-1042). -/
def UpdateResourceGroups (e : Env) : Status × Option MErr :=
  match checkHealthy e.state with
  | some err => (some err, none)
  | none =>
    match e.updateResourceGroupsCall with
    | some err => (some err, none)
    | none => (none, none)

/-- `Server.DropResourceGroup` (services.go lines 1044-1068). -/
def DropResourceGroup (e : Env) (name : String) : Status × Option MErr :=
  match checkHealthy e.state with
  | some err => (some err, none)
  | none =>
    if e.replicasByResourceGroup name ≠ [] then
      (some (.wrap ("some replicas still loaded in resource group[" ++ name ++
        "], release it first") (.parameterInvalid "empty resource group" name "")), none)
    else
      match e.removeResourceGroup name with
      | some err => (some err, none)
      | none => (none, none)

/-- `Server.TransferNode` (services.go lines 1071-1093); the
`RecoverAllCollection` side effect is external. -/
def TransferNode (e : Env) (source target : String) (numNode : Int) :
    Status × Option MErr :=
  match checkHealthy e.state with
  | some err => (some err, none)
  | none =>
    match e.transferNodeCall source target numNode with
    | some err => (some err, none)
    | none => (none, none)

/-- `Server.ListResourceGroups` (services.go lines 1126-1141). -/
def ListResourceGroups (e : Env) : Status × Option MErr :=
  match checkHealthy e.state with
  | some err => (some err, none)
  | none => (none, none)

/-- `Server.DescribeResourceGroup` (services.go lines 1143-1217); the
outgoing/incoming node counts are payload, elided. -/
def DescribeResourceGroup (e : Env) (name : String) : Status × Option MErr :=
  match checkHealthy e.state with
  | some err => (some err, none)
  | none =>
    match e.getResourceGroup name with
    | none => (some (.resourceGroupNotFound name), none)
    | some _ => (none, none)

/-! A baseline environment for concrete scenarios. -/

/-- A healthy environment in which every collaborator gives the empty
or trivially successful answer; scenarios override single fields. -/
def env0 : Env where
  state := .Healthy
  getAllCollections := []
  calcLoadPercentage := fun _ => 100
  getCollection := fun _ => none
  failedLoadCacheGet := fun _ => none
  getPartitionsByCollection := fun _ => []
  getPartitionLoadPercentage := fun _ => 100
  getLoadType := fun _ => .unknownType
  getPartition := fun _ => none
  getResourceGroupByCollection := fun _ => []
  replicaByCollectionAndNode := fun _ _ => none
  replicasByCollection := fun _ => []
  replicasByResourceGroup := fun _ => []
  containResourceGroup := fun _ => false
  getResourceGroup := fun _ => none
  addResourceGroup := fun _ => none
  updateResourceGroupsCall := none
  removeResourceGroup := fun _ => none
  transferNodeCall := fun _ _ _ => none
  listResourceGroupsCall := []
  metaTransferReplica := fun _ _ _ _ => none
  isStoppingNodeRaw := fun _ => (false, none)
  nodeInfoGet := fun _ => none
  nodesGetAll := []
  segmentsOnNode := fun _ _ => []
  segmentDistByID := fun _ => []
  leaderViewsByChannel := fun _ => []
  sealedSegmentInTarget := fun _ _ => false
  dmChannelsByCollection := fun _ => []
  updateNextTarget := fun _ => none
  checkLeaderAvailable := fun _ _ => none
  filterDupLeaders := fun l => l
  getComponentStates := fun _ => .ok 0
  analyzeState := fun _ _ => none
  loadCollectionJobWait := fun _ _ _ => none
  loadPartitionJobWait := fun _ _ _ => none
  releaseCollectionJobWait := fun _ => none
  releasePartitionsJobWait := fun _ _ => none
  syncNewCreatedPartitionJobWait := fun _ _ => none
  balanceSegments := fun _ _ _ _ => none
  parseMetricType := fun _ => none
  getSystemInfoMetrics := none
  checkAnyReplicaAvailable := fun _ => false

/-! Concrete scenario environments and requests used as witnesses and
counterexamples (all derived from `env0`). -/

/-- Three nodes, node 2's component-state probe fails at transport
level, every reachable node reports a healthy state. -/
def envC1 : Env :=
  { env0 with
    nodesGetAll := [1, 2, 3]
    getComponentStates := fun n =>
      if n = 2 then .error (.generic "connection refused") else .ok 0 }

/-- A replica of collection 5 on nodes 1 and 2. -/
def replica5 : Replica :=
  { id := 10, collectionID := 5, resourceGroup := DefaultResourceGroupName, nodes := [1, 2] }

/-- Collection 5 fully loaded, node 1 in `replica5`, no node stopping. -/
def envC2 : Env :=
  { env0 with
    replicaByCollectionAndNode := fun cid n =>
      if cid = 5 ∧ n = 1 then some replica5 else none }

/-- A balance request for collection 5 from source node 1 with an empty
destination list. -/
def reqC2 : LoadBalanceRequest :=
  { collectionID := 5, sourceNodeIDs := [1], dstNodeIDs := [], sealedSegmentIDs := [] }

/-- Collection 100 with load status `Loaded` while its percentage (both
the calculated one and the stored field) is still 50. -/
def colC3 : Collection :=
  { status := .Loaded, loadPercentage := 50, releasedPartitions := [],
    hasRefreshNotifier := false, refreshed := false }

/-- Environment for `colC3`. -/
def envC3 : Env :=
  { env0 with
    getCollection := fun cid => if cid = 100 then some colC3 else none
    calcLoadPercentage := fun _ => 50 }

/-- Collection 100 still loading at 40 percent. -/
def colC3w : Collection :=
  { status := .Loading, loadPercentage := 40, releasedPartitions := [],
    hasRefreshNotifier := false, refreshed := false }

/-- Environment for `colC3w`. -/
def envC3w : Env :=
  { env0 with
    getCollection := fun cid => if cid = 100 then some colC3w else none
    calcLoadPercentage := fun _ => 40 }

/-- Collection 100 already has replicas, all of them in group `rgB`. -/
def envC4 : Env :=
  { env0 with
    getResourceGroupByCollection := fun cid => if cid = 100 then ["rgB"] else [] }

/-- Load request naming only `rgA` for collection 100. -/
def lreqC4 : LoadCollectionRequest :=
  { collectionID := 100, replicaNumber := 1, resourceGroups := ["rgA"], refresh := false }

/-- Load-partitions request mixing the default group with `rgA`. -/
def preqC4 : LoadPartitionsRequest :=
  { collectionID := 100, partitionIDs := [11], replicaNumber := 1,
    resourceGroups := [DefaultResourceGroupName, "rgA"], refresh := false }

/-- Collection 42 at 50 percent with no collection record (status not
`Loaded`). -/
def envC5 : Env :=
  { env0 with calcLoadPercentage := fun _ => 50 }

/-- Collection 5: segments 101 and 102 reside on source node 1, only
segment 101 is in the current target. -/
def envC7 : Env :=
  { env0 with
    replicaByCollectionAndNode := fun cid n =>
      if cid = 5 ∧ n = 1 then some replica5 else none
    segmentsOnNode := fun cid n =>
      if cid = 5 ∧ n = 1 then [⟨101, 5⟩, ⟨102, 5⟩] else []
    sealedSegmentInTarget := fun cid sid => cid == 5 && sid == 101 }

/-- Balance request for collection 5 listing segments 101 and 102. -/
def reqC7 : LoadBalanceRequest :=
  { collectionID := 5, sourceNodeIDs := [1], dstNodeIDs := [], sealedSegmentIDs := [101, 102] }

/-- Resource groups `rgA` and `rgB` exist, `rgC` does not. -/
def envC8 : Env :=
  { env0 with containResourceGroup := fun n => n == "rgA" || n == "rgB" }

/-- Transfer one replica of collection 100 from `rgA` to `rgB`. -/
def reqC8 : TransferReplicaRequest :=
  { collectionID := 100, sourceResourceGroup := "rgA", targetResourceGroup := "rgB",
    numReplica := 1 }

/-- Transfer request whose target group `rgC` does not exist. -/
def reqC8bad : TransferReplicaRequest :=
  { collectionID := 100, sourceResourceGroup := "rgA", targetResourceGroup := "rgC",
    numReplica := 1 }

/-- Balance request with two source nodes. -/
def reqC9 : LoadBalanceRequest :=
  { collectionID := 5, sourceNodeIDs := [1, 2], dstNodeIDs := [], sealedSegmentIDs := [] }

/-- Collection 7 fully loaded with two channels: `ch1` resolves to node
1, while `ch2`'s only leader view fails the availability check. -/
def envC10 : Env :=
  { env0 with
    dmChannelsByCollection := fun cid => if cid = 7 then ["ch1", "ch2"] else []
    leaderViewsByChannel := fun ch =>
      if ch = "ch1" then [⟨1, "ch1"⟩]
      else if ch = "ch2" then [⟨2, "ch2"⟩]
      else []
    checkLeaderAvailable := fun _ l =>
      if l.id = 2 then some (.generic "leader is not available") else none
    nodeInfoGet := fun n => if n = 1 then some ⟨1, "addr1", "host1"⟩ else none }

/-- The response `GetShardLeaders` produces on `envC10` for collection
7: channel `ch2` fails, so the shard list resolved for `ch1` is
discarded. -/
def rC10 : GetShardLeadersResp :=
  { status := some (.wrap "leader is not available" (.channelNotAvailable "ch2")),
    shards := [] }

/-! Theorems. -/

/-- Every branch of `ShowCollections` returns a nil Go error. -/
theorem showCollections_goErr (e : Env) (cids : List Int) :
    (ShowCollections e cids).2 = none := by
  unfold ShowCollections
  repeat first | rfl | split

/-- Every branch of `ShowPartitions` returns a nil Go error. -/
theorem showPartitions_goErr (e : Env) (cid : Int) (pids : List Int) :
    (ShowPartitions e cid pids).2 = none := by
  unfold ShowPartitions
  repeat first | rfl | split

/-- Every branch of `LoadCollection` returns a nil Go error. -/
theorem loadCollection_goErr (e : Env) (req : LoadCollectionRequest) :
    (LoadCollection e req).goErr = none := by
  unfold LoadCollection
  repeat first | rfl | split

/-- Every branch of `ReleaseCollection` returns a nil Go error. -/
theorem releaseCollection_goErr (e : Env) (cid : Int) :
    (ReleaseCollection e cid).2 = none := by
  unfold ReleaseCollection
  repeat first | rfl | split

/-- Every branch of `LoadPartitions` returns a nil Go error. -/
theorem loadPartitions_goErr (e : Env) (req : LoadPartitionsRequest) :
    (LoadPartitions e req).goErr = none := by
  unfold LoadPartitions
  repeat first | rfl | split

/-- Every branch of `ReleasePartitions` returns a nil Go error. -/
theorem releasePartitions_goErr (e : Env) (cid : Int) (pids : List Int) :
    (ReleasePartitions e cid pids).2 = none := by
  unfold ReleasePartitions
  repeat first | rfl | split

/-- Every branch of `GetPartitionStates` returns a nil Go error. -/
theorem getPartitionStates_goErr (e : Env) (cid : Int) (pids : List Int) :
    (GetPartitionStates e cid pids).2 = none := by
  unfold GetPartitionStates
  repeat first | rfl | split | dsimp only

/-- Every branch of `GetSegmentInfo` returns a nil Go error. -/
theorem getSegmentInfo_goErr (e : Env) (cid : Int) (sids : List Int) :
    (GetSegmentInfo e cid sids).2 = none := by
  unfold GetSegmentInfo
  repeat first | rfl | split

/-- Every branch of `SyncNewCreatedPartition` returns a nil Go error. -/
theorem syncNewCreatedPartition_goErr (e : Env) (cid pid : Int) :
    (SyncNewCreatedPartition e cid pid).2 = none := by
  unfold SyncNewCreatedPartition
  repeat first | rfl | split

/-- Every branch of `LoadBalance` returns a nil Go error. -/
theorem loadBalance_goErr (e : Env) (req : LoadBalanceRequest) :
    (LoadBalance e req).goErr = none := by
  unfold LoadBalance
  repeat first | rfl | split | dsimp only

/-- Every branch of `ShowConfigurations` returns a nil Go error. -/
theorem showConfigurations_goErr (e : Env) :
    (ShowConfigurations e).2 = none := by
  unfold ShowConfigurations
  repeat first | rfl | split

/-- Every branch of `GetMetrics` returns a nil Go error. -/
theorem getMetrics_goErr (e : Env) (request : String) :
    (GetMetrics e request).2 = none := by
  unfold GetMetrics
  repeat first | rfl | split

/-- Every branch of `GetReplicas` returns a nil Go error. -/
theorem getReplicas_goErr (e : Env) (cid : Int) :
    (GetReplicas e cid).2 = none := by
  unfold GetReplicas
  repeat first | rfl | split

/-- Every returning branch of `GetShardLeaders` carries a nil Go
error. -/
theorem getShardLeaders_goErr (e : Env) (cid : Int) :
    (GetShardLeaders e cid).elim True (fun p => p.2 = none) := by
  unfold GetShardLeaders shardLeadersChannelsPhase
  repeat first | rfl | trivial | split | dsimp only

/-- Every branch of `CheckHealth` returns a nil Go error. -/
theorem checkHealth_goErr (e : Env) :
    (CheckHealth e).2 = none := by
  unfold CheckHealth
  repeat first | rfl | split | dsimp only

/-- Every branch of `CreateResourceGroup` returns a nil Go error. -/
theorem createResourceGroup_goErr (e : Env) (name : String) :
    (CreateResourceGroup e name).2 = none := by
  unfold CreateResourceGroup
  repeat first | rfl | split

/-- Every branch of `UpdateResourceGroups` returns a nil Go error. -/
theorem updateResourceGroups_goErr (e : Env) :
    (UpdateResourceGroups e).2 = none := by
  unfold UpdateResourceGroups
  repeat first | rfl | split

/-- Every branch of `DropResourceGroup` returns a nil Go error. -/
theorem dropResourceGroup_goErr (e : Env) (name : String) :
    (DropResourceGroup e name).2 = none := by
  unfold DropResourceGroup
  repeat first | rfl | split

/-- Every branch of `TransferNode` returns a nil Go error. -/
theorem transferNode_goErr (e : Env) (source target : String) (num : Int) :
    (TransferNode e source target num).2 = none := by
  unfold TransferNode
  repeat first | rfl | split

/-- Every branch of `TransferReplica` returns a nil Go error. -/
theorem transferReplica_goErr (e : Env) (req : TransferReplicaRequest) :
    (TransferReplica e req).2 = none := by
  unfold TransferReplica
  repeat first | rfl | split

/-- Every branch of `ListResourceGroups` returns a nil Go error. -/
theorem listResourceGroups_goErr (e : Env) :
    (ListResourceGroups e).2 = none := by
  unfold ListResourceGroups
  repeat first | rfl | split

/-- Every branch of `DescribeResourceGroup` returns a nil Go error. -/
theorem describeResourceGroup_goErr (e : Env) (name : String) :
    (DescribeResourceGroup e name).2 = none := by
  unfold DescribeResourceGroup
  repeat first | rfl | split

/-- C6: every RPC handler of this service reports expected domain
failures only through the structured status object of its response
payload; the transport-level Go error result is nil on every path of
every handler (health checking's internal probe is the only place a
hard error value even arises, and `CheckHealth` itself still returns a
nil transport error). -/
theorem handlers_no_transport_fault :
    ∀ (e : Env) (cids pids sids : List Int) (cid pid num : Int)
      (name src tgt mreq : String)
      (lreq : LoadCollectionRequest) (preq : LoadPartitionsRequest)
      (breq : LoadBalanceRequest) (treq : TransferReplicaRequest),
      (ShowCollections e cids).2 = none ∧
      (ShowPartitions e cid pids).2 = none ∧
      (LoadCollection e lreq).goErr = none ∧
      (ReleaseCollection e cid).2 = none ∧
      (LoadPartitions e preq).goErr = none ∧
      (ReleasePartitions e cid pids).2 = none ∧
      (GetPartitionStates e cid pids).2 = none ∧
      (GetSegmentInfo e cid sids).2 = none ∧
      (SyncNewCreatedPartition e cid pid).2 = none ∧
      (LoadBalance e breq).goErr = none ∧
      (ShowConfigurations e).2 = none ∧
      (GetMetrics e mreq).2 = none ∧
      (GetReplicas e cid).2 = none ∧
      (GetShardLeaders e cid).elim True (fun p => p.2 = none) ∧
      (CheckHealth e).2 = none ∧
      (CreateResourceGroup e name).2 = none ∧
      (UpdateResourceGroups e).2 = none ∧
      (DropResourceGroup e name).2 = none ∧
      (TransferNode e src tgt num).2 = none ∧
      (TransferReplica e treq).2 = none ∧
      (ListResourceGroups e).2 = none ∧
      (DescribeResourceGroup e name).2 = none :=
  fun e cids pids sids cid pid num name src tgt mreq lreq preq breq treq =>
    ⟨showCollections_goErr e cids, showPartitions_goErr e cid pids,
     loadCollection_goErr e lreq, releaseCollection_goErr e cid,
     loadPartitions_goErr e preq, releasePartitions_goErr e cid pids,
     getPartitionStates_goErr e cid pids, getSegmentInfo_goErr e cid sids,
     syncNewCreatedPartition_goErr e cid pid, loadBalance_goErr e breq,
     showConfigurations_goErr e, getMetrics_goErr e mreq,
     getReplicas_goErr e cid, getShardLeaders_goErr e cid,
     checkHealth_goErr e, createResourceGroup_goErr e name,
     updateResourceGroups_goErr e, dropResourceGroup_goErr e name,
     transferNode_goErr e src tgt num, transferReplica_goErr e treq,
     listResourceGroups_goErr e, describeResourceGroup_goErr e name⟩

/-- C9: LoadBalance rejects a request whose source-node list does not
have exactly one entry with a ParameterInvalid failure, performs no
placement read (no load-percentage calculation, replica lookup,
distribution or target query), submits nothing to the balance executor,
and its answer is independent of all placement state. -/
theorem loadBalance_source_count_gate (e : Env) (req : LoadBalanceRequest)
    (hh : e.state = .Healthy) (hlen : req.sourceNodeIDs.length ≠ 1) :
    statusKind (LoadBalance e req).status = some .parameterInvalid ∧
    (LoadBalance e req).reads = [] ∧
    (LoadBalance e req).balanceCalled = false ∧
    ∀ e2 : Env, e2.state = .Healthy →
      (LoadBalance e2 req).status = (LoadBalance e req).status := by
  have hlb : ∀ e' : Env, e'.state = .Healthy →
      LoadBalance e' req = lbFail (.parameterInvalid "only 1 source node"
        (toString req.sourceNodeIDs.length ++ " source nodes") "") [] := by
    intro e' h'
    unfold LoadBalance
    rw [h']
    simp [checkHealthy, hlen]
  rw [hlb e hh]
  refine ⟨rfl, rfl, rfl, fun e2 h2 => ?_⟩
  rw [hlb e2 h2]

/-- C9 witness: a two-source request on the baseline environment. -/
theorem loadBalance_source_count_gate_witness :
    statusKind (LoadBalance env0 reqC9).status = some .parameterInvalid ∧
    (LoadBalance env0 reqC9).reads = [] := by
  have h := loadBalance_source_count_gate env0 reqC9 rfl (by decide)
  exact ⟨h.1, h.2.1⟩

/-- C8: TransferReplica fails with ResourceGroupNotFound when the
source or the target resource group does not exist, applying no change;
only when both exist is the transfer applied through the replica
manager, whose result becomes the response status. -/
theorem transferReplica_group_existence (e : Env) (req : TransferReplicaRequest)
    (hh : e.state = .Healthy) :
    (e.containResourceGroup req.sourceResourceGroup = false →
      statusKind (TransferReplica e req).1.status = some .resourceGroupNotFound ∧
      (TransferReplica e req).1.applied = false) ∧
    (e.containResourceGroup req.sourceResourceGroup = true →
     e.containResourceGroup req.targetResourceGroup = false →
      statusKind (TransferReplica e req).1.status = some .resourceGroupNotFound ∧
      (TransferReplica e req).1.applied = false) ∧
    (e.containResourceGroup req.sourceResourceGroup = true →
     e.containResourceGroup req.targetResourceGroup = true →
      (TransferReplica e req).1.applied = true ∧
      (TransferReplica e req).1.status =
        e.metaTransferReplica req.collectionID req.sourceResourceGroup
          req.targetResourceGroup req.numReplica) := by
  refine ⟨fun h1 => ?_, fun h1 h2 => ?_, fun h1 h2 => ?_⟩
  · unfold TransferReplica
    rw [hh]
    simp [checkHealthy, h1, statusKind, MErr.kind]
  · unfold TransferReplica
    rw [hh]
    simp [checkHealthy, h1, h2, statusKind, MErr.kind]
  · unfold TransferReplica
    rw [hh]
    simp [checkHealthy, h1, h2]

/-- C8 witness: with groups `rgA` and `rgB` existing, a transfer from
`rgA` to `rgB` is applied, while a transfer towards the missing group
`rgC` fails with ResourceGroupNotFound and is not applied. -/
theorem transferReplica_group_existence_witness :
    (TransferReplica envC8 reqC8).1.applied = true ∧
    statusKind (TransferReplica envC8 reqC8bad).1.status = some .resourceGroupNotFound ∧
    (TransferReplica envC8 reqC8bad).1.applied = false := by
  have hok := (transferReplica_group_existence envC8 reqC8 rfl).2.2 (by decide) (by decide)
  have hbad := (transferReplica_group_existence envC8 reqC8bad rfl).2.1 (by decide) (by decide)
  exact ⟨hok.1, hbad.1, hbad.2⟩

/-- A transport error at any node of the probe list makes the hard
error component of the probe non-nil. -/
theorem checkNodeHealthLoop_transport_isSome (e : Env) :
    ∀ (l : List Int) (n : Int) (t : MErr), n ∈ l → e.getComponentStates n = .error t →
      (checkNodeHealthLoop e l).2.isSome = true := by
  intro l
  induction l with
  | nil => intro n t hn _; cases hn
  | cons a rest ih =>
    intro n t hn ht
    rcases List.mem_cons.mp hn with h | h
    · subst h
      unfold checkNodeHealthLoop
      rw [ht]
      rfl
    · unfold checkNodeHealthLoop
      cases hA : e.getComponentStates a with
      | error err => rfl
      | ok resp =>
        simp only []
        exact ih n t h ht

/-- The hard error the probe returns is the transport error of one of
the probed nodes. -/
theorem checkNodeHealthLoop_err_source (e : Env) :
    ∀ (l : List Int) (t : MErr), (checkNodeHealthLoop e l).2 = some t →
      ∃ n, n ∈ l ∧ e.getComponentStates n = .error t := by
  intro l
  induction l with
  | nil => intro t h; cases h
  | cons a rest ih =>
    intro t h
    unfold checkNodeHealthLoop at h
    cases hA : e.getComponentStates a with
    | error err =>
      rw [hA] at h
      simp only [] at h
      cases h
      exact ⟨a, List.mem_cons_self a rest, hA⟩
    | ok resp =>
      rw [hA] at h
      simp only [] at h
      obtain ⟨n, hn, hcs⟩ := ih t h
      exact ⟨n, List.mem_cons_of_mem a hn, hcs⟩

/-- With no transport error anywhere, the probe's hard error component
is nil (unhealthy component states land only in the reason list). -/
theorem checkNodeHealthLoop_no_transport (e : Env) :
    ∀ l : List Int, (∀ n ∈ l, ∀ t, e.getComponentStates n ≠ .error t) →
      (checkNodeHealthLoop e l).2 = none := by
  intro l
  induction l with
  | nil => intro _; rfl
  | cons a rest ih =>
    intro h
    unfold checkNodeHealthLoop
    cases hA : e.getComponentStates a with
    | error err => exact absurd hA (h a (List.mem_cons_self a rest) err)
    | ok resp =>
      simp only []
      exact ih (fun n hn t => h n (List.mem_cons_of_mem a hn) t)

/-- C1: in CheckHealth, a transport error returned by any single node's
component-state probe is escalated as the probe's hard error (the value
`checkNodeHealth` returns beside the reason list is that transport
error, and the overall response reports unhealthy), while without
transport errors the hard error is nil and a node reporting a
non-healthy component state surfaces only through the reason strings. -/
theorem checkHealth_transport_error_escalates (e : Env) (hh : e.state = .Healthy) :
    (∀ n t, n ∈ e.nodesGetAll → e.getComponentStates n = .error t →
      (checkNodeHealth e).2.isSome = true ∧ (CheckHealth e).1.isHealthy = false) ∧
    (∀ t, (checkNodeHealth e).2 = some t →
      ∃ n, n ∈ e.nodesGetAll ∧ e.getComponentStates n = .error t) ∧
    ((∀ n ∈ e.nodesGetAll, ∀ t, e.getComponentStates n ≠ .error t) →
      (checkNodeHealth e).2 = none ∧
      ((CheckHealth e).1.isHealthy = false ↔ (checkNodeHealth e).1 ≠ [])) := by
  refine ⟨fun n t hn ht => ?_, fun t ht => ?_, fun hno => ?_⟩
  · have hs := checkNodeHealthLoop_transport_isSome e e.nodesGetAll n t hn ht
    refine ⟨hs, ?_⟩
    unfold CheckHealth
    rw [hh]
    simp [checkHealthy, checkNodeHealth, hs]
  · exact checkNodeHealthLoop_err_source e e.nodesGetAll t ht
  · have hz := checkNodeHealthLoop_no_transport e e.nodesGetAll hno
    refine ⟨hz, ?_⟩
    unfold CheckHealth
    rw [hh]
    by_cases hr : (checkNodeHealth e).1 = []
    · simp [checkHealthy, checkNodeHealth, hz, hr]
      rw [show checkNodeHealthLoop e e.nodesGetAll =
        ((checkNodeHealthLoop e e.nodesGetAll).1, (checkNodeHealthLoop e e.nodesGetAll).2)
        from rfl, hz]
      unfold checkNodeHealth at hr
      rw [hr]
      simp
    · simp [checkHealthy, checkNodeHealth, hr]
      rw [show checkNodeHealthLoop e e.nodesGetAll =
        ((checkNodeHealthLoop e e.nodesGetAll).1, (checkNodeHealthLoop e e.nodesGetAll).2)
        from rfl, hz]
      unfold checkNodeHealth at hr
      simp [hr]

/-- C1 witness: three nodes, node 2's probe fails at transport level
while every reachable node reports healthy: the probe ends with a hard
error and the coordinator reports unhealthy with an empty reason list,
not merely a reason entry for node 2. -/
theorem checkHealth_transport_error_escalates_witness :
    (checkNodeHealth envC1).2.isSome = true ∧
    (CheckHealth envC1).1.isHealthy = false ∧
    (CheckHealth envC1).1.reasons = [] := by
  have h := (checkHealth_transport_error_escalates envC1 rfl).1 2
    (.generic "connection refused") (by decide) rfl
  exact ⟨h.1, h.2, by decide⟩

/-- C5: the load gates of GetShardLeaders: a negative calculated
percentage fails up front with CollectionNotLoaded; a percentage below
100 on a collection whose status is not Loaded fails up front with
CollectionNotFullyLoaded; a collection whose status is Loaded passes
the gate regardless of the percentage value and the handler proceeds to
channel resolution. -/
theorem getShardLeaders_percentage_gate (e : Env) (cid : Int) (hh : e.state = .Healthy) :
    (e.calcLoadPercentage cid < 0 →
      GetShardLeaders e cid =
        some ({ status := some (.collectionNotLoaded cid ""), shards := [] }, none)) ∧
    (0 ≤ e.calcLoadPercentage cid → collectionStatusLoaded e cid = false →
     e.calcLoadPercentage cid < 100 →
      GetShardLeaders e cid =
        some ({ status := some (.collectionNotFullyLoaded cid), shards := [] }, none)) ∧
    (0 ≤ e.calcLoadPercentage cid → collectionStatusLoaded e cid = true →
      GetShardLeaders e cid = shardLeadersChannelsPhase e cid) := by
  refine ⟨fun hneg => ?_, fun h0 hl hp => ?_, fun h0 hl => ?_⟩
  · unfold GetShardLeaders
    rw [hh]
    simp [checkHealthy, hneg]
  · unfold GetShardLeaders
    rw [hh]
    simp [checkHealthy, not_lt.mpr h0, hl, hp]
  · unfold GetShardLeaders
    rw [hh]
    simp [checkHealthy, not_lt.mpr h0, hl]

/-- C5 witness: collection 42 at percentage 50 with no Loaded status is
rejected up front with CollectionNotFullyLoaded and an empty shard
list. -/
theorem getShardLeaders_percentage_gate_witness :
    GetShardLeaders envC5 42 =
      some ({ status := some (.collectionNotFullyLoaded 42), shards := [] }, none) :=
  (getShardLeaders_percentage_gate envC5 42 rfl).2.1 (by decide) rfl (by decide)

/-- Whenever the channel loop produces a response with a failure
status, its shard list is empty. -/
theorem resolveLoop_failure_clears (e : Env) (cid : Int) :
    ∀ (chans : List String) (acc : List ShardLeadersList) (r : GetShardLeadersResp),
      resolveLoop e cid chans acc = some r → r.status.isSome = true → r.shards = [] := by
  intro chans
  induction chans with
  | nil =>
    intro acc r h hs
    unfold resolveLoop at h
    cases h
    cases hs
  | cons ch rest ih =>
    intro acc r h hs
    unfold resolveLoop at h
    cases hc : resolveChannel e cid ch with
    | ok sh =>
      rw [hc] at h
      exact ih (acc ++ [sh]) r h hs
    | fail st =>
      rw [hc] at h
      cases h
      rfl
    | crash =>
      rw [hc] at h
      cases h

/-- C10: GetShardLeaders is all-or-nothing across channels: every
response it returns with a failure status has a nil `Shards` list, so
leader lists already resolved for earlier channels in the same call are
never returned beside a failure. -/
theorem getShardLeaders_all_or_nothing (e : Env) (cid : Int)
    (r : GetShardLeadersResp) (g : Option MErr)
    (h : GetShardLeaders e cid = some (r, g)) (hf : r.status.isSome = true) :
    r.shards = [] := by
  unfold GetShardLeaders at h
  cases hc : checkHealthy e.state with
  | some err =>
    rw [hc] at h
    cases h
    rfl
  | none =>
    rw [hc] at h
    dsimp only at h
    by_cases h1 : e.calcLoadPercentage cid < 0
    · rw [if_pos h1] at h
      cases h
      rfl
    · rw [if_neg h1] at h
      have hphase : shardLeadersChannelsPhase e cid = some (r, g) →
          r.shards = [] := by
        intro h
        unfold shardLeadersChannelsPhase at h
        dsimp only at h
        by_cases hch : e.dmChannelsByCollection cid = []
        · rw [if_pos hch] at h
          cases h
          rfl
        · rw [if_neg hch] at h
          cases hr : resolveLoop e cid (e.dmChannelsByCollection cid) [] with
          | none => rw [hr] at h; cases h
          | some r2 =>
            rw [hr] at h
            cases h
            exact resolveLoop_failure_clears e cid _ [] r hr hf
      by_cases hl : collectionStatusLoaded e cid = true
      · rw [if_pos hl] at h
        rw [if_neg (by norm_num : ¬ (100:Int) < 100)] at h
        exact hphase h
      · rw [if_neg hl] at h
        by_cases h2 : e.calcLoadPercentage cid < 100
        · rw [if_pos h2] at h
          cases h
          rfl
        · rw [if_neg h2] at h
          exact hphase h

/-- C10 witness: collection 7 has two channels; `ch1` resolves to node
1 but `ch2` fails its availability filter, so the whole response
carries `ch2`'s ChannelNotAvailable failure and an empty shard list —
the shard already resolved for `ch1` is discarded. -/
theorem getShardLeaders_all_or_nothing_witness :
    GetShardLeaders envC10 7 = some (rC10, none) ∧
    rC10.status.isSome = true ∧ rC10.shards = [] := by
  refine ⟨by decide, by decide, ?_⟩
  exact getShardLeaders_all_or_nothing envC10 7 rC10 none (by decide) (by decide)

/-- Every error produced by the resource-group validation loop is a
ParameterInvalid error. -/
theorem checkResourceGroupLoop_kind_pi (used : List String) (total : Nat) :
    ∀ (l : List String) (err : MErr), checkResourceGroupLoop used total l = some err →
      err.kind = .parameterInvalid := by
  intro l
  induction l with
  | nil => intro err h; cases h
  | cons a rest ih =>
    intro err h
    unfold checkResourceGroupLoop at h
    by_cases h1 : used.length > 0 ∧ a ∉ used
    · rw [if_pos h1] at h
      cases h
      rfl
    · rw [if_neg h1] at h
      by_cases h2 : total > 1 ∧ a = DefaultResourceGroupName
      · rw [if_pos h2] at h
        cases h
        rfl
      · rw [if_neg h2] at h
        exact ih err h

/-- A violated validation rule (a named group missing from the groups
already used by the collection, or the default group mixed into a
multi-group request) makes the validation loop fail. -/
theorem checkResourceGroupLoop_violation_isSome (used : List String) (total : Nat) :
    ∀ l : List String,
      ((used ≠ [] ∧ ∃ rg, rg ∈ l ∧ rg ∉ used) ∨
       (total > 1 ∧ DefaultResourceGroupName ∈ l)) →
      (checkResourceGroupLoop used total l).isSome = true := by
  intro l
  induction l with
  | nil =>
    intro h
    rcases h with ⟨_, rg, hm, _⟩ | ⟨_, hm⟩ <;> cases hm
  | cons a rest ih =>
    intro h
    unfold checkResourceGroupLoop
    by_cases h1 : used.length > 0 ∧ a ∉ used
    · rw [if_pos h1]
      rfl
    · rw [if_neg h1]
      by_cases h2 : total > 1 ∧ a = DefaultResourceGroupName
      · rw [if_pos h2]
        rfl
      · rw [if_neg h2]
        apply ih
        rcases h with ⟨hu, rg, hm, hnot⟩ | ⟨ht, hm⟩
        · refine Or.inl ⟨hu, rg, ?_, hnot⟩
          rcases List.mem_cons.mp hm with he | hm2
          · exact absurd ⟨List.length_pos.mpr hu, he ▸ hnot⟩ h1
          · exact hm2
        · refine Or.inr ⟨ht, ?_⟩
          rcases List.mem_cons.mp hm with he | hm2
          · exact absurd ⟨ht, he.symm⟩ h2
          · exact hm2

/-- A violated rule makes `checkResourceGroup` return a
ParameterInvalid error. -/
theorem checkResourceGroup_violation (e : Env) (cid : Int) (rgs : List String)
    (hviol : (e.getResourceGroupByCollection cid ≠ [] ∧
        ∃ rg, rg ∈ rgs ∧ rg ∉ e.getResourceGroupByCollection cid) ∨
      (rgs.length > 1 ∧ DefaultResourceGroupName ∈ rgs)) :
    ∃ err, checkResourceGroup e cid rgs = some err ∧ err.kind = .parameterInvalid := by
  have hne : rgs ≠ [] := by
    rcases hviol with ⟨_, rg, hm, _⟩ | ⟨_, hm⟩ <;> exact List.ne_nil_of_mem hm
  unfold checkResourceGroup
  rw [if_pos hne]
  have hs := checkResourceGroupLoop_violation_isSome
    (e.getResourceGroupByCollection cid) rgs.length rgs hviol
  obtain ⟨err, herr⟩ := Option.isSome_iff_exists.mp hs
  exact ⟨err, herr, checkResourceGroupLoop_kind_pi _ _ rgs err herr⟩

/-- C4: a non-refresh load request (LoadCollection or LoadPartitions)
naming resource groups explicitly is rejected with ParameterInvalid and
submits no job whenever the collection already has replicas and a named
group is not among the groups holding them, or more than one group is
named and the default group is among them. -/
theorem load_resource_group_validation (e : Env)
    (lreq : LoadCollectionRequest) (preq : LoadPartitionsRequest)
    (hh : e.state = .Healthy) (hlr : lreq.refresh = false) (hpr : preq.refresh = false)
    (hviolL : (e.getResourceGroupByCollection lreq.collectionID ≠ [] ∧
        ∃ rg, rg ∈ lreq.resourceGroups ∧
          rg ∉ e.getResourceGroupByCollection lreq.collectionID) ∨
      (lreq.resourceGroups.length > 1 ∧ DefaultResourceGroupName ∈ lreq.resourceGroups))
    (hviolP : (e.getResourceGroupByCollection preq.collectionID ≠ [] ∧
        ∃ rg, rg ∈ preq.resourceGroups ∧
          rg ∉ e.getResourceGroupByCollection preq.collectionID) ∨
      (preq.resourceGroups.length > 1 ∧ DefaultResourceGroupName ∈ preq.resourceGroups)) :
    statusKind (LoadCollection e lreq).status = some .parameterInvalid ∧
    (LoadCollection e lreq).jobSubmitted = false ∧
    statusKind (LoadPartitions e preq).status = some .parameterInvalid ∧
    (LoadPartitions e preq).jobSubmitted = false := by
  obtain ⟨errL, hL, hkL⟩ :=
    checkResourceGroup_violation e lreq.collectionID lreq.resourceGroups hviolL
  obtain ⟨errP, hP, hkP⟩ :=
    checkResourceGroup_violation e preq.collectionID preq.resourceGroups hviolP
  refine ⟨?_, ?_, ?_, ?_⟩
  · unfold LoadCollection
    rw [hh]
    simp [checkHealthy, hlr, hL, statusKind, MErr.kind, hkL]
  · unfold LoadCollection
    rw [hh]
    simp [checkHealthy, hlr, hL]
  · unfold LoadPartitions
    rw [hh]
    simp [checkHealthy, hpr, hP, statusKind, MErr.kind, hkP]
  · unfold LoadPartitions
    rw [hh]
    simp [checkHealthy, hpr, hP]

/-- C4 witness: collection 100 has replicas only in `rgB`, so a load
naming `rgA` is rejected; a load-partitions request mixing the default
group with `rgA` is rejected; neither submits a job. -/
theorem load_resource_group_validation_witness :
    statusKind (LoadCollection envC4 lreqC4).status = some .parameterInvalid ∧
    (LoadCollection envC4 lreqC4).jobSubmitted = false ∧
    statusKind (LoadPartitions envC4 preqC4).status = some .parameterInvalid ∧
    (LoadPartitions envC4 preqC4).jobSubmitted = false :=
  load_resource_group_validation envC4 lreqC4 preqC4 rfl rfl rfl
    (Or.inl (by decide)) (Or.inr (by decide))

/-- C3 counterexample: a collection whose load status is `Loaded` while
its reported load percentage (both the calculated value and the stored
field) is 50 refreshes successfully, so a load percentage below 100
does not make a refresh fail. -/
theorem refreshCollection_percentage_cex :
    envC3.calcLoadPercentage 100 = 50 ∧
    envC3.getCollection 100 = some colC3 ∧
    colC3.loadPercentage = 50 ∧
    (refreshCollection envC3 100).1 = none := by
  exact ⟨rfl, rfl, rfl, rfl⟩

/-- C3 (amended): a refresh on a collection whose load status is not
`Loaded` (the code gates on status, not on the percentage value) always
fails with a not-loaded condition; a refresh never mutates any
collection's reported load percentage (neither the calculated one nor
the stored field) nor its status; and the refresh path of
LoadCollection returns exactly the refresh outcome without submitting a
job. -/
theorem refreshCollection_status_gate (e : Env) (cid : Int) :
    ((∀ c, e.getCollection cid = some c → c.status ≠ .Loaded) →
      statusKind (refreshCollection e cid).1 = some .collectionNotLoaded) ∧
    (∀ cid2 : Int,
      ((refreshCollection e cid).2).calcLoadPercentage cid2 = e.calcLoadPercentage cid2 ∧
      (((refreshCollection e cid).2).getCollection cid2).map Collection.loadPercentage =
        (e.getCollection cid2).map Collection.loadPercentage ∧
      (((refreshCollection e cid).2).getCollection cid2).map Collection.status =
        (e.getCollection cid2).map Collection.status) ∧
    (∀ req : LoadCollectionRequest, e.state = .Healthy → req.refresh = true →
      (LoadCollection e req).status = (refreshCollection e req.collectionID).1 ∧
      (LoadCollection e req).jobSubmitted = false) := by
  refine ⟨fun hst => ?_, fun cid2 => ?_, fun req hh hr => ?_⟩
  · unfold refreshCollection
    cases hcol : e.getCollection cid with
    | none => simp [statusKind, MErr.kind]
    | some c =>
      dsimp only
      rw [if_pos (hst c hcol)]
      simp [statusKind, MErr.kind]
  · unfold refreshCollection
    cases hcol : e.getCollection cid with
    | none => exact ⟨rfl, rfl, rfl⟩
    | some c =>
      dsimp only
      by_cases hstat : c.status ≠ .Loaded
      · rw [if_pos hstat]
        exact ⟨rfl, rfl, rfl⟩
      · rw [if_neg hstat]
        cases hupd : e.updateNextTarget cid with
        | some err => exact ⟨rfl, rfl, rfl⟩
        | none =>
          refine ⟨rfl, ?_, ?_⟩ <;>
          · dsimp only
            by_cases hc2 : cid2 = cid
            · subst hc2
              rw [if_pos rfl, hcol]
              simp [Option.map]
            · rw [if_neg hc2]
  · unfold LoadCollection
    rw [hh]
    simp [checkHealthy, hr]

/-- C3 witness: collection 100 is still `Loading` at 40 percent: the
refresh fails with a not-loaded condition and the reported percentage
is unchanged. -/
theorem refreshCollection_status_gate_witness :
    statusKind (refreshCollection envC3w 100).1 = some .collectionNotLoaded ∧
    ((refreshCollection envC3w 100).2).calcLoadPercentage 100 =
      envC3w.calcLoadPercentage 100 := by
  have h := refreshCollection_status_gate envC3w 100
  refine ⟨h.1 ?_, (h.2.1 100).1⟩
  intro c hc
  rw [show envC3w.getCollection 100 = some colC3w from rfl] at hc
  cases hc
  decide

/-- Membership in a fold of unique insertions. -/
theorem mem_foldl_insertUnique (x : Int) :
    ∀ (l acc : List Int), x ∈ l.foldl insertUnique acc ↔ x ∈ acc ∨ x ∈ l := by
  intro l
  induction l with
  | nil => intro acc; simp
  | cons a rest ih =>
    intro acc
    simp only [List.foldl_cons]
    rw [ih]
    unfold insertUnique
    by_cases ha : a ∈ acc
    · rw [if_pos ha]
      constructor
      · rintro (h | h)
        · exact Or.inl h
        · exact Or.inr (List.mem_cons_of_mem a h)
      · rintro (h | h)
        · exact Or.inl h
        · rcases List.mem_cons.mp h with he | hm
          · exact Or.inl (he ▸ ha)
          · exact Or.inr hm
    · rw [if_neg ha]
      constructor
      · rintro (h | h)
        · rcases List.mem_append.mp h with h2 | h2
          · exact Or.inl h2
          · exact Or.inr (List.mem_cons.mpr (Or.inl (List.mem_singleton.mp h2)))
        · exact Or.inr (List.mem_cons_of_mem a h)
      · rintro (h | h)
        · exact Or.inl (List.mem_append.mpr (Or.inl h))
        · rcases List.mem_cons.mp h with he | hm
          · exact Or.inl (List.mem_append.mpr (Or.inr (by simp [he])))
          · exact Or.inr hm

/-- When no node of the destination set is stopping, the stopping scan
finds nothing. -/
theorem firstStoppingErr_none (e : Env) :
    ∀ l : List Int, (∀ n ∈ l, isStoppingNodeCheck e n = none) →
      firstStoppingErr e l = none := by
  intro l
  induction l with
  | nil => intro _; rfl
  | cons a rest ih =>
    intro h
    unfold firstStoppingErr
    rw [h a (List.mem_cons_self a rest)]
    exact ih (fun n hn => h n (List.mem_cons_of_mem a hn))

/-- A stopping (or unverifiable) node in the destination set makes the
stopping scan report an error. -/
theorem firstStoppingErr_isSome (e : Env) :
    ∀ (l : List Int) (n : Int), n ∈ l → isStoppingNodeCheck e n ≠ none →
      (firstStoppingErr e l).isSome = true := by
  intro l
  induction l with
  | nil => intro n hn _; cases hn
  | cons a rest ih =>
    intro n hn hstop
    unfold firstStoppingErr
    cases hA : isStoppingNodeCheck e a with
    | some err => rfl
    | none =>
      rcases List.mem_cons.mp hn with he | hm
      · exact absurd (he ▸ hA) hstop
      · exact ih n hm hstop

/-- When every explicit destination belongs to the replica, the
destination loop succeeds with the unique set of the request list. -/
theorem collectDstNodes_ok (replica : Replica) :
    ∀ (l acc : List Int), (∀ d ∈ l, d ∈ replica.nodes) →
      collectDstNodes replica acc l = .ok (l.foldl insertUnique acc) := by
  intro l
  induction l with
  | nil => intro acc _; rfl
  | cons a rest ih =>
    intro acc h
    unfold collectDstNodes
    rw [if_pos (h a (List.mem_cons_self a rest))]
    simp only [List.foldl_cons]
    exact ih (insertUnique acc a) (fun d hd => h d (List.mem_cons_of_mem a hd))

/-- An explicit destination outside the replica makes the destination
loop fail with a NodeNotFound error. -/
theorem collectDstNodes_err (replica : Replica) :
    ∀ (l acc : List Int) (d : Int), d ∈ l → d ∉ replica.nodes →
      ∃ err, collectDstNodes replica acc l = .error err ∧ err.kind = .nodeNotFound := by
  intro l
  induction l with
  | nil => intro acc d hd _; cases hd
  | cons a rest ih =>
    intro acc d hd hdn
    unfold collectDstNodes
    by_cases ha : a ∈ replica.nodes
    · rw [if_pos ha]
      rcases List.mem_cons.mp hd with he | hm
      · exact absurd (he ▸ ha) hdn
      · exact ih (insertUnique acc a) d hm hdn
    · rw [if_neg ha]
      exact ⟨.nodeNotFound a "destination node not found in the same replica", rfl, rfl⟩

/-- C2 counterexample: with an empty destination list, the destination
set handed to the balance executor is every node of the source's
replica including the source node itself (source node 1 of replica
`[1, 2]` is in the destination set), not "every node other than the
source". -/
theorem loadBalance_default_dst_includes_source_cex :
    reqC2.sourceNodeIDs = [1] ∧ reqC2.dstNodeIDs = [] ∧
    (LoadBalance envC2 reqC2).balanceCalled = true ∧
    1 ∈ (LoadBalance envC2 reqC2).dstNodes ∧
    (LoadBalance envC2 reqC2).dstNodes = [1, 2] := by
  exact ⟨rfl, rfl, by decide, by decide, by decide⟩

/-- After the health, source-count, load-percentage, replica and
source-stopping gates pass, LoadBalance reduces to the destination and
segment admission logic. -/
theorem loadBalance_after_gates (e : Env) (req : LoadBalanceRequest)
    (src : Int) (replica : Replica)
    (hh : e.state = .Healthy)
    (hsrc : req.sourceNodeIDs = [src])
    (hp : ¬ e.calcLoadPercentage req.collectionID < 100)
    (hrep : e.replicaByCollectionAndNode req.collectionID src = some replica)
    (hss : isStoppingNodeCheck e src = none) :
    LoadBalance e req =
      (match (if req.dstNodeIDs = [] then .ok (uniqueList replica.nodes)
            else collectDstNodes replica [] req.dstNodeIDs :
              Except MErr (List Int)) with
        | .error err => lbFail err [.calcPercentage, .replicaLookup]
        | .ok dstNodeSet =>
          match firstStoppingErr e dstNodeSet with
          | some de =>
            lbFail (.wrap ("can't balance, because the destination node[" ++
              toString de.1 ++ "] is invalid") de.2) [.calcPercentage, .replicaLookup]
          | none =>
            match (if req.sealedSegmentIDs = [] then
                .ok (e.segmentsOnNode req.collectionID src)
              else collectToBalance e (e.segmentsOnNode req.collectionID src) []
                req.sealedSegmentIDs : Except MErr (List Segment)) with
            | .error err =>
              lbFail err [.calcPercentage, .replicaLookup, .distQuery, .targetQuery]
            | .ok toBal =>
              match e.balanceSegments req.collectionID src dstNodeSet
                  (toBal.map (fun s => s.id)) with
              | some err =>
                { status := some (.wrap "failed to balance segments" err), goErr := none,
                  dstNodes := dstNodeSet, toBalance := toBal.map (fun s => s.id),
                  balanceCalled := true,
                  reads := [.calcPercentage, .replicaLookup, .distQuery, .targetQuery] }
              | none =>
                { status := none, goErr := none,
                  dstNodes := dstNodeSet, toBalance := toBal.map (fun s => s.id),
                  balanceCalled := true,
                  reads := [.calcPercentage, .replicaLookup, .distQuery,
                    .targetQuery] }) := by
  unfold LoadBalance
  rw [hh]
  rw [show checkHealthy StateCode.Healthy = none from rfl]
  dsimp only
  rw [hsrc]
  rw [if_neg (by simp : ¬ (([src] : List Int).length ≠ 1))]
  rw [if_neg hp]
  dsimp only [List.headI]
  rw [hrep]
  dsimp only
  rw [hss]

/-- C2 (amended): in LoadBalance, an empty destination list defaults
the destination set to every node of the source's replica, the source
node included; a non-empty list requires every named destination to
belong to the same replica (else NodeNotFound, nothing balanced) and to
not be stopping (else the request is rejected before balancing). -/
theorem loadBalance_dst_validation (e : Env) (req : LoadBalanceRequest)
    (src : Int) (replica : Replica)
    (hh : e.state = .Healthy)
    (hsrc : req.sourceNodeIDs = [src])
    (hp : ¬ e.calcLoadPercentage req.collectionID < 100)
    (hrep : e.replicaByCollectionAndNode req.collectionID src = some replica)
    (hss : isStoppingNodeCheck e src = none) :
    (req.dstNodeIDs = [] →
      (∀ n ∈ uniqueList replica.nodes, isStoppingNodeCheck e n = none) →
      req.sealedSegmentIDs = [] →
      (LoadBalance e req).balanceCalled = true ∧
      (LoadBalance e req).dstNodes = uniqueList replica.nodes) ∧
    (∀ d, d ∈ req.dstNodeIDs → d ∉ replica.nodes →
      statusKind (LoadBalance e req).status = some .nodeNotFound ∧
      (LoadBalance e req).balanceCalled = false) ∧
    ((∀ d ∈ req.dstNodeIDs, d ∈ replica.nodes) →
      ∀ d, d ∈ req.dstNodeIDs → isStoppingNodeCheck e d ≠ none →
      (LoadBalance e req).status.isSome = true ∧
      (LoadBalance e req).balanceCalled = false) := by
  have hred := loadBalance_after_gates e req src replica hh hsrc hp hrep hss
  refine ⟨fun hdst hstop hseg => ?_, fun d hd hdn => ?_, fun hall d hd hstop => ?_⟩
  · rw [hred]
    rw [if_pos hdst]
    dsimp only
    rw [firstStoppingErr_none e (uniqueList replica.nodes) hstop]
    rw [if_pos hseg]
    dsimp only
    cases hb : e.balanceSegments req.collectionID src (uniqueList replica.nodes)
        ((e.segmentsOnNode req.collectionID src).map (fun s => s.id)) with
    | some err => exact ⟨rfl, rfl⟩
    | none => exact ⟨rfl, rfl⟩
  · rw [hred]
    have hne : req.dstNodeIDs ≠ [] := List.ne_nil_of_mem hd
    rw [if_neg hne]
    obtain ⟨err, herr, hkind⟩ := collectDstNodes_err replica req.dstNodeIDs [] d hd hdn
    rw [herr]
    exact ⟨by simp [lbFail, statusKind, hkind], rfl⟩
  · rw [hred]
    have hne : req.dstNodeIDs ≠ [] := List.ne_nil_of_mem hd
    rw [if_neg hne]
    rw [collectDstNodes_ok replica req.dstNodeIDs [] hall]
    dsimp only
    have hmem : d ∈ req.dstNodeIDs.foldl insertUnique [] :=
      (mem_foldl_insertUnique d req.dstNodeIDs []).mpr (Or.inr hd)
    have hs := firstStoppingErr_isSome e (req.dstNodeIDs.foldl insertUnique []) d hmem hstop
    obtain ⟨de, hde⟩ := Option.isSome_iff_exists.mp hs
    rw [hde]
    exact ⟨rfl, rfl⟩

/-- C2 witness: on the concrete environment of the counterexample, the
amended default-destination rule holds: the balance set is handed over
with destination set `uniqueList [1, 2]`, the full replica. -/
theorem loadBalance_dst_validation_witness :
    (LoadBalance envC2 reqC2).balanceCalled = true ∧
    (LoadBalance envC2 reqC2).dstNodes = uniqueList replica5.nodes := by
  exact (loadBalance_dst_validation envC2 reqC2 1 replica5 rfl rfl (by decide)
    rfl rfl).1 rfl (by decide) rfl

/-- A segment found in the source node's segment map carries the looked
up ID. -/
theorem sliceToMapLookup_id (segments : List Segment) (sid : Int) (seg : Segment)
    (h : sliceToMapLookup segments sid = some seg) : seg.id = sid := by
  unfold sliceToMapLookup at h
  have hp := List.find?_some h
  simpa using hp

/-- Membership in a unique segment insertion. -/
theorem mem_insertSegUnique (s t : Segment) (acc : List Segment) :
    s ∈ insertSegUnique acc t ↔ s ∈ acc ∨ s = t := by
  unfold insertSegUnique
  by_cases ht : t ∈ acc
  · rw [if_pos ht]
    constructor
    · exact Or.inl
    · rintro (h | h)
      · exact h
      · exact h ▸ ht
  · rw [if_neg ht]
    simp

/-- When every listed segment resides on the source node, the segment
loop succeeds and collects exactly the listed segments that are in the
current target. -/
theorem collectToBalance_ok (e : Env) (segments : List Segment) :
    ∀ (l : List Int) (acc : List Segment),
      (∀ sid ∈ l, (sliceToMapLookup segments sid).isSome = true) →
      ∃ out, collectToBalance e segments acc l = .ok out ∧
        ∀ s, s ∈ out ↔ s ∈ acc ∨ ∃ sid, sid ∈ l ∧
          sliceToMapLookup segments sid = some s ∧
          e.sealedSegmentInTarget s.collectionID s.id = true := by
  intro l
  induction l with
  | nil =>
    intro acc _
    exact ⟨acc, rfl, by simp⟩
  | cons sid rest ih =>
    intro acc h
    obtain ⟨seg, hseg⟩ := Option.isSome_iff_exists.mp (h sid (List.mem_cons_self sid rest))
    unfold collectToBalance
    rw [hseg]
    dsimp only
    by_cases htar : e.sealedSegmentInTarget seg.collectionID seg.id = true
    · rw [if_pos htar]
      obtain ⟨out, hout, hchar⟩ :=
        ih (insertSegUnique acc seg) (fun s hs => h s (List.mem_cons_of_mem sid hs))
      refine ⟨out, hout, fun s => ?_⟩
      rw [hchar s, mem_insertSegUnique]
      constructor
      · rintro ((hs | he) | ⟨sid2, hm, hl, ht2⟩)
        · exact Or.inl hs
        · subst he
          exact Or.inr ⟨sid, List.mem_cons_self sid rest, hseg, htar⟩
        · exact Or.inr ⟨sid2, List.mem_cons_of_mem sid hm, hl, ht2⟩
      · rintro (hs | ⟨sid2, hm, hl, ht2⟩)
        · exact Or.inl (Or.inl hs)
        · rcases List.mem_cons.mp hm with he | hm2
          · subst he
            rw [hl] at hseg
            cases hseg
            exact Or.inl (Or.inr rfl)
          · exact Or.inr ⟨sid2, hm2, hl, ht2⟩
    · rw [if_neg htar]
      obtain ⟨out, hout, hchar⟩ :=
        ih acc (fun s hs => h s (List.mem_cons_of_mem sid hs))
      refine ⟨out, hout, fun s => ?_⟩
      rw [hchar s]
      constructor
      · rintro (hs | ⟨sid2, hm, hl, ht2⟩)
        · exact Or.inl hs
        · exact Or.inr ⟨sid2, List.mem_cons_of_mem sid hm, hl, ht2⟩
      · rintro (hs | ⟨sid2, hm, hl, ht2⟩)
        · exact Or.inl hs
        · rcases List.mem_cons.mp hm with he | hm2
          · subst he
            rw [hl] at hseg
            cases hseg
            exact absurd ht2 htar
          · exact Or.inr ⟨sid2, hm2, hl, ht2⟩

/-- A listed segment that does not reside on the source node makes the
segment loop fail with a SegmentNotFound error. -/
theorem collectToBalance_err (e : Env) (segments : List Segment) :
    ∀ (l : List Int) (acc : List Segment) (sid : Int), sid ∈ l →
      sliceToMapLookup segments sid = none →
      ∃ err, collectToBalance e segments acc l = .error err ∧
        err.kind = .segmentNotFound := by
  intro l
  induction l with
  | nil => intro acc sid hs _; cases hs
  | cons a rest ih =>
    intro acc sid hs hnone
    unfold collectToBalance
    cases hA : sliceToMapLookup segments a with
    | none =>
      exact ⟨.segmentNotFound a "segment not found in source node", rfl, rfl⟩
    | some seg =>
      rcases List.mem_cons.mp hs with he | hm
      · rw [he] at hnone
        rw [hnone] at hA
        cases hA
      · dsimp only
        by_cases htar : e.sealedSegmentInTarget seg.collectionID seg.id = true
        · rw [if_pos htar]
          exact ih (insertSegUnique acc seg) sid hm hnone
        · rw [if_neg htar]
          exact ih acc sid hm hnone

/-- C7: in LoadBalance with a non-empty explicit sealed-segment list, a
listed segment that does not reside on the source node causes rejection
with SegmentNotFound before anything is balanced; when every listed
segment resides on the source node the balance set is handed over, and
it contains exactly the listed segments that are in the current target
— a resident segment absent from the target is silently excluded. -/
theorem loadBalance_segment_admission (e : Env) (req : LoadBalanceRequest)
    (src : Int) (replica : Replica)
    (hh : e.state = .Healthy)
    (hsrc : req.sourceNodeIDs = [src])
    (hp : ¬ e.calcLoadPercentage req.collectionID < 100)
    (hrep : e.replicaByCollectionAndNode req.collectionID src = some replica)
    (hss : isStoppingNodeCheck e src = none)
    (hdst : req.dstNodeIDs = [])
    (hstop : ∀ n ∈ uniqueList replica.nodes, isStoppingNodeCheck e n = none)
    (hne : req.sealedSegmentIDs ≠ []) :
    ((∃ sid, sid ∈ req.sealedSegmentIDs ∧
        sliceToMapLookup (e.segmentsOnNode req.collectionID src) sid = none) →
      statusKind (LoadBalance e req).status = some .segmentNotFound ∧
      (LoadBalance e req).balanceCalled = false) ∧
    ((∀ sid ∈ req.sealedSegmentIDs,
        (sliceToMapLookup (e.segmentsOnNode req.collectionID src) sid).isSome = true) →
      (LoadBalance e req).balanceCalled = true ∧
      ∀ sid, sid ∈ (LoadBalance e req).toBalance ↔
        sid ∈ req.sealedSegmentIDs ∧
        ∃ seg, sliceToMapLookup (e.segmentsOnNode req.collectionID src) sid = some seg ∧
          e.sealedSegmentInTarget seg.collectionID seg.id = true) := by
  have hred := loadBalance_after_gates e req src replica hh hsrc hp hrep hss
  rw [if_pos hdst] at hred
  dsimp only at hred
  rw [firstStoppingErr_none e (uniqueList replica.nodes) hstop] at hred
  dsimp only at hred
  rw [if_neg hne] at hred
  refine ⟨fun ⟨sid, hm, hnone⟩ => ?_, fun hall => ?_⟩
  · obtain ⟨err, herr, hkind⟩ :=
      collectToBalance_err e (e.segmentsOnNode req.collectionID src)
        req.sealedSegmentIDs [] sid hm hnone
    rw [herr] at hred
    rw [hred]
    exact ⟨by simp [lbFail, statusKind, hkind], rfl⟩
  · obtain ⟨out, hout, hchar⟩ :=
      collectToBalance_ok e (e.segmentsOnNode req.collectionID src)
        req.sealedSegmentIDs [] hall
    rw [hout] at hred
    dsimp only at hred
    have hmain : (LoadBalance e req).balanceCalled = true ∧
        (LoadBalance e req).toBalance = out.map (fun s => s.id) := by
      rw [hred]
      cases hb : e.balanceSegments req.collectionID src (uniqueList replica.nodes)
          (out.map (fun s => s.id)) with
      | some err => exact ⟨rfl, rfl⟩
      | none => exact ⟨rfl, rfl⟩
    refine ⟨hmain.1, fun sid => ?_⟩
    rw [hmain.2]
    constructor
    · intro hmem
      obtain ⟨seg, hsegmem, hsegid⟩ := List.mem_map.mp hmem
      have hc := (hchar seg).mp hsegmem
      rcases hc with hfalse | ⟨sid2, hm2, hl2, ht2⟩
      · cases hfalse
      · have hid : seg.id = sid2 :=
          sliceToMapLookup_id (e.segmentsOnNode req.collectionID src) sid2 seg hl2
        have hsid : sid2 = sid := by rw [← hid, hsegid]
        subst hsid
        exact ⟨hm2, seg, hl2, ht2⟩
    · rintro ⟨hm2, seg, hl2, ht2⟩
      have hsegmem : seg ∈ out :=
        (hchar seg).mpr (Or.inr ⟨sid, hm2, hl2, ht2⟩)
      exact List.mem_map.mpr ⟨seg, hsegmem,
        sliceToMapLookup_id (e.segmentsOnNode req.collectionID src) sid seg hl2⟩

/-- C7 witness: segments 101 and 102 reside on source node 1 of
collection 5 but only 101 is in the current target: the balance request
listing both succeeds, balancing exactly segment 101 and silently
skipping 102. -/
theorem loadBalance_segment_admission_witness :
    (LoadBalance envC7 reqC7).balanceCalled = true ∧
    101 ∈ (LoadBalance envC7 reqC7).toBalance ∧
    ¬ 102 ∈ (LoadBalance envC7 reqC7).toBalance := by
  have h := (loadBalance_segment_admission envC7 reqC7 1 replica5 rfl rfl (by decide)
    rfl rfl rfl (by decide) (by decide)).2 (by decide)
  refine ⟨h.1, (h.2 101).mpr ⟨by decide, ⟨101, 5⟩, by decide, by decide⟩, ?_⟩
  intro hc
  obtain ⟨hm, seg, hl, ht⟩ := (h.2 102).mp hc
  rw [show sliceToMapLookup (envC7.segmentsOnNode reqC7.collectionID 1) 102 =
    some ⟨102, 5⟩ from rfl] at hl
  cases hl
  exact absurd ht (by decide)

end QueryCoordV2
